import Mathlib

set_option maxRecDepth 4000

/-!
Shallow embedding of the Bayrol Poolmanager device-session client
(src/api.py, src/const.py).  HTTP traffic is modelled by a script of
network results consumed in order; every issued request is recorded in a
trace.  Python exceptions are modelled by `Except PyErr`; a Python
function that can fall off its end returning `None` gets result type
`Option Bool`.
-/

namespace BayrolPool

/-! ### Python dict model (insertion order, one binding per key) -/

def dget {α : Type} : List (String × α) → String → Option α
  | [], _ => none
  | (k', v) :: t, k => if k' = k then some v else dget t k

def dset {α : Type} : List (String × α) → String → α → List (String × α)
  | [], k, v => [(k, v)]
  | (k', v') :: t, k, v => if k' = k then (k, v) :: t else (k', v') :: dset t k v

/-- Python `dict.update`: later bindings of `m` win over `d` and over earlier
bindings of `m`. -/
def dictUpdate {α : Type} (d : List (String × α)) (m : List (String × α)) :
    List (String × α) :=
  m.foldl (fun acc p => dset acc p.1 p.2) d

/-- The binding for `k` that survives `dictUpdate` from `m`: the last one. -/
def lastGet {α : Type} (m : List (String × α)) (k : String) : Option α :=
  dget m.reverse k

/-! ### Regex fragments used by api.py, as character-list scanners -/

/-- Split a character list at the first occurrence of `pat`:
`some (before, after)` when `pat` occurs, `none` otherwise. -/
def findSplit (pat : List Char) : List Char → Option (List Char × List Char)
  | [] => none
  | c :: rest =>
    if pat.isPrefixOf (c :: rest) then some ([], (c :: rest).drop pat.length)
    else
      match findSplit pat rest with
      | some (pre, post) => some (c :: pre, post)
      | none => none

def trimChars (l : List Char) : List Char :=
  ((l.dropWhile Char.isWhitespace).reverse.dropWhile Char.isWhitespace).reverse

/-- Python `pat in s` substring test. -/
def containsSub (pat s : String) : Bool :=
  (findSplit pat.toList s.toList).isSome

/-- The group of `re.search(r"<title>(.*?)</title>", text, re.DOTALL)`,
stripped; `none` when the search fails (Python: `.group` raises). -/
def titleSearch (text : String) : Option String :=
  match findSplit "<title>".toList text.toList with
  | none => none
  | some (_, rest) =>
    match findSplit "</title>".toList rest with
    | none => none
    | some (grp, _) => some (String.mk (trimChars grp))

/-- The apostrophe character that closes the wui.init session-id marker. -/
def quoteChar : Char := Char.ofNat 39

/-- Scanner for the session-id regex search of get_session_id: at each
position, the literal wui.init marker with its opening quote, then a
nonempty alphanumeric run closed by a quote; otherwise scanning continues
one position to the right. -/
def sidScan : List Char → Option (List Char)
  | [] => none
  | c :: rest =>
    let pat := "wui.init(".toList ++ [quoteChar]
    if pat.isPrefixOf (c :: rest) then
      let after := (c :: rest).drop pat.length
      let run := after.takeWhile Char.isAlphanum
      if run ≠ [] ∧ (after.drop run.length).head? = some quoteChar then some run
      else sidScan rest
    else sidScan rest

def sidSearch (text : String) : Option String :=
  (sidScan text.toList).map String.mk

/-- Scanner for the unlock-code field-name regex of elevate_service_level:
the literal 42.802, one digit, then the literal .code; group(0) is the
whole match. -/
def svcScan : List Char → Option (List Char)
  | [] => none
  | c :: rest =>
    let pat := "42.802".toList
    if pat.isPrefixOf (c :: rest) then
      match (c :: rest).drop pat.length with
      | d :: tail =>
        if d.isDigit ∧ ".code".toList.isPrefixOf tail then
          some (pat ++ d :: ".code".toList)
        else svcScan rest
      | [] => svcScan rest
    else svcScan rest

def svcSearch (text : String) : Option String :=
  (svcScan text.toList).map String.mk

/-! ### Data model (src/const.py) -/

inductive JVal where
  | vInt (n : Int)
  | vStr (s : String)
  | null
deriving DecidableEq

inductive PumpMode where
  | ECO
  | NORMAL
  | HIGH
  | AUTO
  | OFF
deriving DecidableEq

def PumpMode.value : PumpMode → Int
  | .ECO => 1
  | .NORMAL => 2
  | .HIGH => 4
  | .AUTO => 8
  | .OFF => 16

inductive PumpData where
  | TEMPERATURE
  | PH_VALUE
  | CURRENT_PUMP_MODE
deriving DecidableEq

def PumpData.value : PumpData → String
  | .TEMPERATURE => "34.4033.value"
  | .PH_VALUE => "34.4001.value"
  | .CURRENT_PUMP_MODE => "60.5427.value"

def PumpData.name : PumpData → String
  | .TEMPERATURE => "TEMPERATURE"
  | .PH_VALUE => "PH_VALUE"
  | .CURRENT_PUMP_MODE => "CURRENT_PUMP_MODE"

/-- Keys of `PumpData.__members__`. -/
def PumpData.memberNames : List String :=
  ["TEMPERATURE", "PH_VALUE", "CURRENT_PUMP_MODE"]

/-- Attribute lookup on the PumpData enum class: `some` member for a defined
member name, `none` (Python AttributeError) otherwise.  In particular
`PumpData.attr "PUMP_MODE" = none`: const.py defines CURRENT_PUMP_MODE, not
PUMP_MODE. -/
def PumpData.attr : String → Option PumpData
  | "TEMPERATURE" => some .TEMPERATURE
  | "PH_VALUE" => some .PH_VALUE
  | "CURRENT_PUMP_MODE" => some .CURRENT_PUMP_MODE
  | _ => none

/-! ### Requests, responses and the transport script -/

inductive SetVal where
  | s (v : String)
  | i (v : Int)
deriving DecidableEq

structure ReqBody where
  getKeys : List String
  setVals : List (String × SetVal)
deriving DecidableEq

inductive Request where
  | get (params : List (String × String))
  | post (body : ReqBody)
deriving DecidableEq

/-- The JSON body of a response, as far as api.py reads it:
`event` models presence of the `event` key and of its `data` field;
`data` models the `data` map. -/
structure PyJson where
  event : Option (Option String)
  data : Option (List (String × JVal))
deriving DecidableEq

/-- A delivered HTTP response; `json = none` means `.json()` raises. -/
structure Response where
  status_code : Nat
  text : String
  json : Option PyJson
deriving DecidableEq

/-- One scripted transport outcome: the request raises, or a response. -/
inductive NetResult where
  | raise
  | ok (r : Response)
deriving DecidableEq

/-- The mutable fields of PoolPumpAPI: the session query parameters and the
`_current_data` snapshot cache. -/
structure ClientState where
  params : List (String × String)
  current_data : List (String × JVal)
deriving DecidableEq

/-- Client state plus the remaining transport script and the trace of
requests issued so far. -/
structure Env where
  st : ClientState
  script : List NetResult
  trace : List Request
deriving DecidableEq

inductive PyErr where
  | typeError (msg : String)
  | valueError (msg : String)
  | attributeError (msg : String)
  | keyError (msg : String)
  | transportError
  | jsonError
deriving DecidableEq

instance instDecEqExcept {ε α : Type} [DecidableEq ε] [DecidableEq α] :
    DecidableEq (Except ε α)
  | Except.ok a, Except.ok b =>
    if h : a = b then isTrue (congrArg Except.ok h)
    else isFalse (fun hh => h (Except.ok.inj hh))
  | Except.error a, Except.error b =>
    if h : a = b then isTrue (congrArg Except.error h)
    else isFalse (fun hh => h (Except.error.inj hh))
  | Except.ok _, Except.error _ => isFalse (fun hh => Except.noConfusion hh)
  | Except.error _, Except.ok _ => isFalse (fun hh => Except.noConfusion hh)

/-- Issue a GET (session params merged with call params), consuming the next
scripted outcome; an exhausted script behaves as a transport exception. -/
def doGet (e : Env) (ps : List (String × String)) : NetResult × Env :=
  let req := Request.get (e.st.params ++ ps)
  match e.script with
  | [] => (NetResult.raise, { e with trace := e.trace ++ [req] })
  | r :: rest => (r, { e with trace := e.trace ++ [req], script := rest })

/-- Issue a POST with a JSON body, consuming the next scripted outcome. -/
def doPost (e : Env) (body : ReqBody) : NetResult × Env :=
  let req := Request.post body
  match e.script with
  | [] => (NetResult.raise, { e with trace := e.trace ++ [req] })
  | r :: rest => (r, { e with trace := e.trace ++ [req], script := rest })

def countPosts : List Request → Nat
  | [] => 0
  | Request.get _ :: t => countPosts t
  | Request.post _ :: t => countPosts t + 1

/-- Function `extract_title` of api.py: regex search over `response.text`;
`none` models the AttributeError of `.group(1)` on a failed search. -/
def extract_title (response : Response) : Option String :=
  titleSearch response.text

/-! ### PoolPumpAPI methods (src/api.py) -/

/-- Method `get_session_id`: GET the base URL, extract a session id from the
body, store it in the session params.  Both a transport exception and a failed
regex search are caught and yield `False`. -/
def get_session_id (e : Env) : (Except PyErr Bool) × Env :=
  match doGet e [] with
  | (NetResult.raise, e) => (.ok false, e)
  | (NetResult.ok auth_response, e) =>
    match sidSearch auth_response.text with
    | none => (.ok false, e)
    | some sid =>
      if sid = "" then (.ok false, e)
      else
        (.ok true, { e with st := { e.st with params := dset e.st.params "sid" sid } })

/-- Method `authenticated`: GET the menu command, classify the HTML title.  A
transport exception yields `False`; a body with no title makes
`extract_title` raise AttributeError, which is not caught here. -/
def authenticated (e : Env) : (Except PyErr Bool) × Env :=
  match doGet e [("cmd", "2.17005.0")] with
  | (NetResult.raise, e) => (.ok false, e)
  | (NetResult.ok menu_response, e) =>
    match extract_title menu_response with
    | none => (.error (PyErr.attributeError "group"), e)
    | some title =>
      if title = "icon" then (.ok true, e)
      else if title = "PM5" then (.ok false, e)
      else if containsSub "Can Fig" title then (.ok false, e)
      else (.ok false, e)

/-- The credential payload of `login`. -/
def loginBody (u p : String) : ReqBody :=
  { getKeys := [], setVals := [("9.17401.user", SetVal.s u), ("9.17401.pass", SetVal.s p)] }

/-- The opening of `login`: bootstrap a session id when the session params
hold none (the result of `get_session_id` is discarded). -/
def login_precheck (e : Env) : Env :=
  if (dget e.st.params "sid").isSome then e else (get_session_id e).2

/-- Method `login`: bootstrap if needed, short-circuit on the `authenticated`
probe, otherwise POST the credentials.  Result `some true` / `some false`
are the explicit returns; `none` is Python falling off the end of the
function (returning `None`).  `login_response.json()` is first called
inside the `try` (for a debug log), so a JSON decode error is caught
there; the later subscripts `["event"]["data"]` run outside it and raise
KeyError when absent. -/
def login (u p : String) (e : Env) : (Except PyErr (Option Bool)) × Env :=
  let e := login_precheck e
  match authenticated e with
  | (.error err, e) => (.error err, e)
  | (.ok true, e) => (.ok (some true), e)
  | (.ok false, e) =>
    match doPost e (loginBody u p) with
    | (NetResult.raise, e) => (.ok (some false), e)
    | (NetResult.ok login_response, e) =>
      match login_response.json with
      | none => (.ok (some false), e)
      | some j =>
        match j.event with
        | none => (.error (PyErr.keyError "event"), e)
        | some none => (.error (PyErr.keyError "data"), e)
        | some (some ev) =>
          if ev = "3.16912.0" then
            match authenticated e with
            | (.error err, e) => (.error err, e)
            | (.ok true, e) => (.ok (some true), e)
            | (.ok false, e) => (.ok none, e)
          else (.ok none, e)

/-- Python truthiness of the result of `login` (None and False are falsy). -/
def truthy : Option Bool → Bool
  | some true => true
  | _ => false

/-- The shared authentication gate of `elevate_service_level` and
`set_filter_pump_mode`: `if not await self.authenticated(): if not await
self.login(): return False`.  `ok true` means the caller proceeds. -/
def elevate_auth_gate (u p : String) (e : Env) : (Except PyErr Bool) × Env :=
  match authenticated e with
  | (.error err, e) => (.error err, e)
  | (.ok true, e) => (.ok true, e)
  | (.ok false, e) =>
    match login u p e with
    | (.error err, e) => (.error err, e)
    | (.ok v, e) => if truthy v then (.ok true, e) else (.ok false, e)

/-- Method `elevate_service_level`: validate the level, ensure
authentication, GET the preflight probe, and on title "access" extract the
unlock-code field name and POST the numeric code of the requested level
followed by a confirmation GET.
Title "menu" short-circuits to success.  All transport and parse failures
inside the two `try` blocks are caught and yield `False`. -/
def elevate_service_level (u p : String) (level : Int) (e : Env) :
    (Except PyErr Bool) × Env :=
  if level ≠ 1 ∧ level ≠ 2 then
    (.error (PyErr.valueError
      ("Invalid service level: " ++ toString level ++ ". Valid modes are: 1 and 2 only.")), e)
  else
    match elevate_auth_gate u p e with
    | (.error err, e) => (.error err, e)
    | (.ok false, e) => (.ok false, e)
    | (.ok true, e) =>
      match doGet e [("cmd", "1.1360.0")] with
      | (NetResult.raise, e) => (.ok false, e)
      | (NetResult.ok res, e) =>
        match extract_title res with
        | none => (.ok false, e)
        | some title =>
          if title = "access" then
            match svcSearch res.text with
            | none => (.ok false, e)
            | some key =>
              let code : Int := if level = 1 then 1234 else 5678
              match doPost e { getKeys := [], setVals := [(key, SetVal.s (toString code))] } with
              | (NetResult.raise, e) => (.ok false, e)
              | (NetResult.ok response, e) =>
                match doGet e [("cmd", "3.16912.0")] with
                | (NetResult.raise, e) => (.ok false, e)
                | (NetResult.ok response2, e) =>
                  match response.json with
                  | none => (.ok false, e)
                  | some rj =>
                    (.ok ((rj.event.bind id = some "1.1360.0") ∧
                          response2.status_code = 200 : Bool), e)
          else if title = "menu" then (.ok true, e)
          else (.ok false, e)

/-- Method `set_filter_pump_mode`: authenticate, elevate to level 2, POST the
combined get/set payload.  The `else:` branch of the `try` then evaluates
`PumpData.PUMP_MODE` — an attribute access on the enum class for a member
that const.py does not define — so it raises AttributeError, uncaught. -/
def set_filter_pump_mode (u p : String) (mode : PumpMode) (e : Env) :
    (Except PyErr Bool) × Env :=
  match elevate_auth_gate u p e with
  | (.error err, e) => (.error err, e)
  | (.ok false, e) => (.ok false, e)
  | (.ok true, e) =>
    match elevate_service_level u p 2 e with
    | (.error err, e) => (.error err, e)
    | (.ok false, e) => (.ok false, e)
    | (.ok true, e) =>
      let pump_payload : ReqBody :=
        { getKeys := ["60.5427.value", "1.1256.value", "1.1246.value"],
          setVals := [("60.5427.value", SetVal.i mode.value)] }
      match doPost e pump_payload with
      | (NetResult.raise, e) => (.ok false, e)
      | (NetResult.ok response, e) =>
        match response.json with
        | none => (.ok false, e)
        | some json_data =>
          match PumpData.attr "PUMP_MODE" with
          | none => (.error (PyErr.attributeError "PUMP_MODE"), e)
          | some pd =>
            match json_data.data with
            | none => (.error (PyErr.attributeError "get"), e)
            | some m =>
              let v := (dget m pd.value).getD JVal.null
              (.ok (decide (v = JVal.vInt mode.value)),
               { e with st := { e.st with
                   current_data := dset e.st.current_data pd.value v } })

/-- An argument passed to `get_filter_pump_data`: a Python list of
enum-like elements (each carrying `.name` and `.value`), or a non-list. -/
structure DataElem where
  name : String
  value : String
deriving DecidableEq

inductive PyArg where
  | list (l : List DataElem)
  | notList
deriving DecidableEq

def PumpData.elem (d : PumpData) : DataElem :=
  ⟨PumpData.name d, PumpData.value d⟩

/-- The result dict comprehension of `get_filter_pump_data`:
`\x7bkey: self._current_data[key.value] for key in data\x7d`; a missing key
raises KeyError. -/
def collectData (cache : List (String × JVal)) :
    List DataElem → Except PyErr (List (DataElem × JVal))
  | [] => .ok []
  | d :: ds =>
    match dget cache d.value with
    | none => .error (PyErr.keyError d.value)
    | some v =>
      match collectData cache ds with
      | .error err => .error err
      | .ok out => .ok ((d, v) :: out)

/-- Method `get_filter_pump_data`: validate the argument (a non-list raises
TypeError; so does a list holding an element whose `.name` is not a
PumpData member name — the empty list passes both checks), POST one read
request, merge the `data` map of the response into `_current_data`, and return
the requested subset from the updated cache.  An exception in the `try`
is logged and re-raised. -/
def get_filter_pump_data (arg : PyArg) (e : Env) :
    (Except PyErr (List (DataElem × JVal))) × Env :=
  match arg with
  | .notList => (.error (PyErr.typeError "data must be a list"), e)
  | .list data =>
    if ¬ (data.all fun d => PumpData.memberNames.contains d.name) then
      (.error (PyErr.typeError "data must contain valid PumpData enum members"), e)
    else
      match doPost e { getKeys := data.map (fun d => d.value), setVals := [] } with
      | (NetResult.raise, e) => (.error PyErr.transportError, e)
      | (NetResult.ok response, e) =>
        match response.json with
        | none => (.error PyErr.jsonError, e)
        | some j =>
          match j.data with
          | none => (.error (PyErr.typeError "cannot update dict from None"), e)
          | some m =>
            let e := { e with st := { e.st with
                current_data := dictUpdate e.st.current_data m } }
            match collectData e.st.current_data data with
            | .error err => (.error err, e)
            | .ok out => (.ok out, e)

/-- Method `available`: GET the base URL; a transport exception yields `False`,
otherwise the result is `status_code == 200`. -/
def available (e : Env) : (Except PyErr Bool) × Env :=
  match doGet e [] with
  | (NetResult.raise, e) => (.ok false, e)
  | (NetResult.ok res, e) => (.ok (decide (res.status_code = 200)), e)

/-! ### Spec-side classifiers for the refinement claims -/

/-- Classification of `authenticated` per the (amended) spec sentence: a
delivered response is classified by its title, true exactly on "icon";
a missing script entry or a scripted transport exception yields false; a
response body without a title makes the title extraction raise. -/
def authSpec : List NetResult → Except PyErr Bool
  | NetResult.ok r :: _ =>
    match titleSearch r.text with
    | some t => .ok (decide (t = "icon"))
    | none => .error (PyErr.attributeError "group")
  | _ => .ok false

/-- Classification of `available` per the (amended) spec sentence: true
exactly when a response is delivered with status exactly 200. -/
def availSpec : List NetResult → Bool
  | NetResult.ok r :: _ => decide (r.status_code = 200)
  | _ => false

/-- What the `data` map of the first scripted response provides for key
`k`, when the run gets that far: the binding that `dict.update` would
leave in the cache. -/
def respProvides (s : List NetResult) (k : String) : Option JVal :=
  match s with
  | NetResult.ok r :: _ =>
    match r.json with
    | some j =>
      match j.data with
      | some m => lastGet m k
      | none => none
    | none => none
  | _ => none

/-! ### Helper lemmas: dict semantics -/

theorem dget_dset {α : Type} (c : List (String × α)) (k' : String) (v : α)
    (k : String) :
    dget (dset c k' v) k = if k' = k then some v else dget c k := by
  induction c with
  | nil => simp [dget, dset]
  | cons p t ih =>
    obtain ⟨a, b⟩ := p
    by_cases hak : a = k'
    · subst hak
      by_cases h : a = k <;> simp [dset, dget, h]
    · simp only [dset, if_neg hak]
      by_cases h : a = k
      · have hkk : k' ≠ k := fun hh => hak (h.trans hh.symm)
        simp [dget, h, if_neg hkk]
      · simp [dget, h, ih]

theorem dget_append {α : Type} (a b : List (String × α)) (k : String) :
    dget (a ++ b) k =
      match dget a k with
      | some v => some v
      | none => dget b k := by
  induction a with
  | nil => simp [dget]
  | cons p t ih =>
    obtain ⟨k', v⟩ := p
    by_cases h : k' = k
    · simp [dget, h]
    · simp [dget, h, ih]

theorem dget_dictUpdate {α : Type} (m : List (String × α)) (c : List (String × α))
    (k : String) :
    dget (dictUpdate c m) k =
      match lastGet m k with
      | some v => some v
      | none => dget c k := by
  induction m generalizing c with
  | nil => simp [dictUpdate, lastGet, dget]
  | cons p m' ih =>
    have hupd : dictUpdate c (p :: m') = dictUpdate (dset c p.1 p.2) m' := by
      simp [dictUpdate]
    have hlast : lastGet (p :: m') k =
        match lastGet m' k with
        | some v => some v
        | none => dget [p] k := by
      simp only [lastGet, List.reverse_cons]
      exact dget_append m'.reverse [p] k
    rw [hupd, ih, hlast]
    rcases hm : lastGet m' k with _ | v
    · simp only []
      rw [dget_dset]
      obtain ⟨k', v'⟩ := p
      by_cases h : k' = k <;> simp [dget, h]
    · simp only []

/-! ### Helper lemmas: traces and state -/

theorem doGet_snd (e : Env) (ps : List (String × String)) :
    (doGet e ps).2.trace = e.trace ++ [Request.get (e.st.params ++ ps)] ∧
    (doGet e ps).2.st = e.st := by
  obtain ⟨st, script, trace⟩ := e
  cases script <;> simp [doGet]

theorem doPost_snd (e : Env) (b : ReqBody) :
    (doPost e b).2.trace = e.trace ++ [Request.post b] ∧
    (doPost e b).2.st = e.st := by
  obtain ⟨st, script, trace⟩ := e
  cases script <;> simp [doPost]

theorem countPosts_append (a b : List Request) :
    countPosts (a ++ b) = countPosts a + countPosts b := by
  induction a with
  | nil => simp [countPosts]
  | cons r t ih =>
    cases r with
    | get ps => simp [countPosts, ih]
    | post b' =>
      simp [countPosts, ih]
      omega

theorem authenticated_env (e : Env) :
    (authenticated e).2 = (doGet e [("cmd", "2.17005.0")]).2 := by
  rcases hd : doGet e [("cmd", "2.17005.0")] with ⟨nr, e'⟩
  cases nr with
  | raise => simp [authenticated, hd]
  | ok resp =>
    simp only [authenticated, hd]
    cases h : extract_title resp with
    | none => simp
    | some t =>
      dsimp only
      split_ifs <;> rfl

theorem authenticated_countPosts (e : Env) :
    countPosts (authenticated e).2.trace = countPosts e.trace := by
  rw [authenticated_env, (doGet_snd e _).1, countPosts_append]
  simp [countPosts]

theorem get_session_id_trace (e : Env) :
    (get_session_id e).2.trace = e.trace ++ [Request.get (e.st.params ++ [])] := by
  rcases hd : doGet e [] with ⟨nr, e'⟩
  have ht := (doGet_snd e []).1
  rw [hd] at ht
  cases nr with
  | raise =>
    simp only [get_session_id, hd]
    exact ht
  | ok resp =>
    simp only [get_session_id, hd]
    cases h : sidSearch resp.text with
    | none => exact ht
    | some sid =>
      dsimp only
      split_ifs <;> exact ht

theorem login_precheck_countPosts (e : Env) :
    countPosts (login_precheck e).trace = countPosts e.trace := by
  unfold login_precheck
  split
  · rfl
  · rw [get_session_id_trace, countPosts_append]
    simp [countPosts]

/-! ### Concrete transport fixtures -/

/-- A response whose body is an HTML page titled `t`. -/
def titleResp (t : String) : Response :=
  { status_code := 200, text := "<title>" ++ t ++ "</title>", json := none }

/-- A JSON response with the given `event`/`data` content. -/
def jsonResp (ev : Option (Option String)) (d : Option (List (String × JVal))) :
    Response :=
  { status_code := 200, text := "", json := some { event := ev, data := d } }

/-- A bootstrapped client: a session id is present, the cache empty. -/
def baseState : ClientState :=
  { params := [("sid", "ABC123")], current_data := [] }

/-! ### Claims -/

/-- C1: the claim says `set_filter_pump_mode` never propagates an exception
to its caller — on any exception it logs and returns failure.  The code
refutes it: with the session authenticated (title "icon"), the service
level already elevated (preflight title "menu"), and the set POST
delivered with the requested code echoed back, the `else:` block
evaluates `PumpData.PUMP_MODE` — a member const.py does not define
(it defines CURRENT_PUMP_MODE) — and the AttributeError propagates,
uncaught, to the caller. -/
theorem set_filter_pump_mode_attributeError_escapes :
    (set_filter_pump_mode "user" "pw" PumpMode.HIGH
      { st := baseState,
        script := [NetResult.ok (titleResp "icon"), NetResult.ok (titleResp "icon"),
                   NetResult.ok (titleResp "menu"),
                   NetResult.ok (jsonResp none (some [("60.5427.value", JVal.vInt 4)]))],
        trace := [] }).1
      = Except.error (PyErr.attributeError "PUMP_MODE") := by decide

/-- C2: the claim says `set_filter_pump_mode` returns success exactly when
the echoed value for "60.5427.value" equals the code of the requested mode.
The code refutes it: on this run the device echoes exactly the requested
code 2 for NORMAL, yet the call does not return success — the comparison
on line 207 of api.py is never reached because `PumpData.PUMP_MODE`
raises AttributeError first. -/
theorem set_filter_pump_mode_echo_never_compared :
    (set_filter_pump_mode "user" "pw" PumpMode.NORMAL
      { st := baseState,
        script := [NetResult.ok (titleResp "icon"), NetResult.ok (titleResp "icon"),
                   NetResult.ok (titleResp "menu"),
                   NetResult.ok (jsonResp none (some [("60.5427.value", JVal.vInt 2)]))],
        trace := [] }).1
      = Except.error (PyErr.attributeError "PUMP_MODE") := by decide

/-- C3 counterexample: the claim says an empty input signals an
invalid-argument condition and issues no request.  The code refutes it:
`get_filter_pump_data([])` passes both validation checks (the `all` over
an empty list is vacuously true), POSTs an empty read request to the
transport, and returns an empty dict. -/
theorem get_filter_pump_data_empty_list_issues_request :
    (get_filter_pump_data (PyArg.list [])
      { st := { params := [], current_data := [] },
        script := [NetResult.ok (jsonResp none (some []))], trace := [] }).1
      = Except.ok [] ∧
    (get_filter_pump_data (PyArg.list [])
      { st := { params := [], current_data := [] },
        script := [NetResult.ok (jsonResp none (some []))], trace := [] }).2.trace
      = [Request.post { getKeys := [], setVals := [] }] := by decide

/-- C3 amended: a non-list argument, or a list holding an element whose
`.name` is not a PumpData member name, makes `get_filter_pump_data` raise
TypeError immediately, with no request issued and no state change (the
environment is returned untouched); the empty list is NOT rejected. -/
theorem get_filter_pump_data_invalid_input (e : Env) (arg : PyArg)
    (h : arg = PyArg.notList ∨
         ∃ l d, arg = PyArg.list l ∧ d ∈ l ∧ d.name ∉ PumpData.memberNames) :
    (∃ msg, (get_filter_pump_data arg e).1 = Except.error (PyErr.typeError msg)) ∧
    (get_filter_pump_data arg e).2 = e := by
  rcases h with h | ⟨l, d, hl, hdl, hname⟩
  · subst h
    exact ⟨⟨"data must be a list", rfl⟩, rfl⟩
  · subst hl
    have hall : (l.all fun d => PumpData.memberNames.contains d.name) = false := by
      cases hx : l.all fun d => PumpData.memberNames.contains d.name with
      | false => rfl
      | true =>
        exfalso
        have hm := List.all_eq_true.mp hx d hdl
        exact hname (List.elem_iff.mp hm)
    have hred : get_filter_pump_data (PyArg.list l) e
        = (Except.error (PyErr.typeError "data must contain valid PumpData enum members"), e) := by
      simp only [get_filter_pump_data, hall]
      simp
    rw [hred]
    exact ⟨⟨_, rfl⟩, rfl⟩

/-- C3 witness: a PumpMode member (name "ECO") is not a PumpData member, so
the call is rejected with TypeError and the environment is untouched. -/
theorem get_filter_pump_data_invalid_input_witness :
    (∃ msg, (get_filter_pump_data (PyArg.list [⟨"ECO", "1"⟩])
        { st := { params := [], current_data := [] }, script := [], trace := [] }).1
      = Except.error (PyErr.typeError msg)) ∧
    (get_filter_pump_data (PyArg.list [⟨"ECO", "1"⟩])
        { st := { params := [], current_data := [] }, script := [], trace := [] }).2
      = { st := { params := [], current_data := [] }, script := [], trace := [] } :=
  get_filter_pump_data_invalid_input _ _
    (Or.inr ⟨[⟨"ECO", "1"⟩], ⟨"ECO", "1"⟩, rfl, by decide, by decide⟩)

/-- C4: whenever the initial `authenticated()` probe of `login` reports
true, `login` returns success and the whole call issues no POST request:
the count of POSTs in the trace is unchanged (session-id bootstrap and
the probe itself are GETs). -/
theorem login_noop_when_authenticated (u p : String) (e : Env)
    (h : (authenticated (login_precheck e)).1 = Except.ok true) :
    (login u p e).1 = Except.ok (some true) ∧
    countPosts (login u p e).2.trace = countPosts e.trace := by
  rcases hA : authenticated (login_precheck e) with ⟨r, e2⟩
  rw [hA] at h
  have hr : r = Except.ok true := h
  subst hr
  refine ⟨by simp [login, hA], ?_⟩
  have h2 : (login u p e).2 = e2 := by simp [login, hA]
  have he2 : e2 = (authenticated (login_precheck e)).2 := by rw [hA]
  rw [h2, he2, authenticated_countPosts, login_precheck_countPosts]

/-- C4 witness: an already-authenticated session (probe titled "icon"):
login succeeds with no POST in the trace. -/
theorem login_noop_when_authenticated_witness :
    (login "user" "pw"
      { st := baseState, script := [NetResult.ok (titleResp "icon")], trace := [] }).1
      = Except.ok (some true) ∧
    countPosts (login "user" "pw"
      { st := baseState, script := [NetResult.ok (titleResp "icon")], trace := [] }).2.trace
      = countPosts ([] : List Request) :=
  login_noop_when_authenticated "user" "pw"
    { st := baseState, script := [NetResult.ok (titleResp "icon")], trace := [] }
    (by decide)

/-- C5 counterexample: the claim says `authenticated()` always returns a
boolean and never raises.  The code refutes it: a delivered response whose
body holds no `<title>` element makes `extract_title` raise
AttributeError (`.group(1)` on a failed search), outside the `try` of the
function, so the exception escapes. -/
theorem authenticated_raises_on_missing_title :
    (authenticated
      { st := baseState,
        script := [NetResult.ok { status_code := 200, text := "<html></html>", json := none }],
        trace := [] }).1
      = Except.error (PyErr.attributeError "group") := by decide

/-- C5 amended: method `authenticated` returns a boolean and never raises as long
as every delivered response body has a `<title>` element: true exactly on
title "icon", false on "PM5", on "Can Fig" variants, on any other title
and on transport failure; a delivered body without a title raises. -/
theorem authenticated_matches_classifier (e : Env) :
    (authenticated e).1 = authSpec e.script := by
  obtain ⟨st, script, trace⟩ := e
  cases script with
  | nil => rfl
  | cons nr rest =>
    cases nr with
    | raise => rfl
    | ok resp =>
      dsimp only [authenticated, doGet, authSpec, extract_title]
      cases h : titleSearch resp.text with
      | none => simp [h]
      | some t =>
        simp only [h]
        split_ifs with h1 h2 h3 <;> simp [h1]

/-- C6: whenever the run reaches the preflight probe (the shared
authentication gate succeeds) and the probe response is titled "menu",
`elevate_service_level(2)` returns success and issues no further request
at all — in particular no unlock-code write: the POST count of the final
trace equals that at the end of the gate. -/
theorem elevate_menu_short_circuits (u p : String) (e e1 : Env) (r : Response)
    (rest : List NetResult)
    (hg : elevate_auth_gate u p e = (Except.ok true, e1))
    (hs : e1.script = NetResult.ok r :: rest)
    (ht : extract_title r = some "menu") :
    (elevate_service_level u p 2 e).1 = Except.ok true ∧
    countPosts (elevate_service_level u p 2 e).2.trace = countPosts e1.trace := by
  have h12 : ¬ ((2 : Int) ≠ 1 ∧ (2 : Int) ≠ 2) := by norm_num
  have hred : elevate_service_level u p 2 e
      = (Except.ok true,
         { e1 with
            script := rest,
            trace := e1.trace ++ [Request.get (e1.st.params ++ [("cmd", "1.1360.0")])] }) := by
    simp only [elevate_service_level, if_neg h12, hg]
    simp only [doGet, hs]
    simp only [ht]
    norm_num
    intro hcontra
    exact absurd hcontra (by decide)
  rw [hred]
  refine ⟨rfl, ?_⟩
  simp [countPosts_append, countPosts]

/-- C6 witness: authenticated session, preflight titled "menu": elevation
to level 2 succeeds with no POST ever issued. -/
theorem elevate_menu_short_circuits_witness :
    (elevate_service_level "user" "pw" 2
      { st := baseState,
        script := [NetResult.ok (titleResp "icon"), NetResult.ok (titleResp "menu")],
        trace := [] }).1 = Except.ok true ∧
    countPosts (elevate_service_level "user" "pw" 2
      { st := baseState,
        script := [NetResult.ok (titleResp "icon"), NetResult.ok (titleResp "menu")],
        trace := [] }).2.trace
      = countPosts [Request.get (baseState.params ++ [("cmd", "2.17005.0")])] :=
  elevate_menu_short_circuits "user" "pw"
    { st := baseState,
      script := [NetResult.ok (titleResp "icon"), NetResult.ok (titleResp "menu")],
      trace := [] }
    { st := baseState, script := [NetResult.ok (titleResp "menu")],
      trace := [Request.get (baseState.params ++ [("cmd", "2.17005.0")])] }
    (titleResp "menu") [] (by decide) (by decide) (by decide)

/-- Helper: the snapshot cache after `get_filter_pump_data` on a name-valid
list is the old cache merged with the `data` map of the delivered
response, and is untouched when the transport raises or the response is
unparseable. -/
theorem get_filter_pump_data_current_data (data : List DataElem) (e : Env)
    (hx : (data.all fun d => PumpData.memberNames.contains d.name) = true) :
    (get_filter_pump_data (PyArg.list data) e).2.st.current_data
      = match e.script with
        | NetResult.ok r :: _ =>
          match r.json with
          | some j =>
            match j.data with
            | some m => dictUpdate e.st.current_data m
            | none => e.st.current_data
          | none => e.st.current_data
        | _ => e.st.current_data := by
  obtain ⟨⟨params, cd⟩, script, trace⟩ := e
  cases script with
  | nil =>
    simp only [get_filter_pump_data, hx]
    simp [doPost]
  | cons nr rest =>
    cases nr with
    | raise =>
      simp only [get_filter_pump_data, hx]
      simp [doPost]
    | ok resp =>
      cases hj : resp.json with
      | none =>
        simp only [get_filter_pump_data, hx]
        simp [doPost, hj]
      | some j =>
        cases hd : j.data with
        | none =>
          simp only [get_filter_pump_data, hx]
          simp [doPost, hj, hd]
        | some m =>
          simp only [get_filter_pump_data, hx]
          simp only [doPost, hj, hd]
          cases hc : collectData (dictUpdate cd m) data <;> simp [hc]

/-- C7: the snapshot cache is merged, not replaced: for every call, a key
the delivered `data` map does not bind keeps its previously cached value
(in particular nothing is touched on a transport or parse failure or a
rejected argument), and on a name-valid list every key the response binds
ends up in the cache with the value from the response — so two sequential
fetches of disjoint point sets leave the values of both sets
retrievable. -/
theorem get_filter_pump_data_cache_frame (arg : PyArg) (e : Env) (k : String) :
    (respProvides e.script k = none →
      dget (get_filter_pump_data arg e).2.st.current_data k
        = dget e.st.current_data k) ∧
    (∀ l r rest j m v, arg = PyArg.list l →
      (l.all fun d => PumpData.memberNames.contains d.name) = true →
      e.script = NetResult.ok r :: rest → r.json = some j → j.data = some m →
      lastGet m k = some v →
      dget (get_filter_pump_data arg e).2.st.current_data k = some v) := by
  constructor
  · intro hnone
    cases arg with
    | notList => rfl
    | list data =>
      cases hx : data.all fun d => PumpData.memberNames.contains d.name with
      | false =>
        have hred : get_filter_pump_data (PyArg.list data) e
            = (Except.error (PyErr.typeError "data must contain valid PumpData enum members"), e) := by
          simp only [get_filter_pump_data, hx]
          simp
        rw [hred]
      | true =>
        rw [get_filter_pump_data_current_data data e hx]
        cases hscr : e.script with
        | nil => rfl
        | cons nr rest =>
          cases nr with
          | raise => rfl
          | ok resp =>
            dsimp only
            cases hj : resp.json with
            | none => rfl
            | some j =>
              dsimp only
              cases hd : j.data with
              | none => rfl
              | some m =>
                dsimp only
                simp only [respProvides, hscr, hj, hd] at hnone
                rw [dget_dictUpdate, hnone]
  · intro l r rest j m v hl hx hscr hj hd hv
    subst hl
    rw [get_filter_pump_data_current_data l e hx, hscr]
    simp only [hj, hd, dget_dictUpdate, hv]

/-- C7 witness: with pH already cached from an earlier fetch, a fetch of
TEMPERATURE alone keeps the pH value retrievable and adds the fresh
temperature value. -/
theorem get_filter_pump_data_cache_frame_witness :
    dget (get_filter_pump_data (PyArg.list [PumpData.elem PumpData.TEMPERATURE])
      { st := { params := [], current_data := [("34.4001.value", JVal.vStr "7.2")] },
        script := [NetResult.ok (jsonResp none (some [("34.4033.value", JVal.vInt 21)]))],
        trace := [] }).2.st.current_data "34.4001.value"
      = some (JVal.vStr "7.2") ∧
    dget (get_filter_pump_data (PyArg.list [PumpData.elem PumpData.TEMPERATURE])
      { st := { params := [], current_data := [("34.4001.value", JVal.vStr "7.2")] },
        script := [NetResult.ok (jsonResp none (some [("34.4033.value", JVal.vInt 21)]))],
        trace := [] }).2.st.current_data "34.4033.value"
      = some (JVal.vInt 21) := by
  constructor
  · have h := (get_filter_pump_data_cache_frame
      (PyArg.list [PumpData.elem PumpData.TEMPERATURE])
      { st := { params := [], current_data := [("34.4001.value", JVal.vStr "7.2")] },
        script := [NetResult.ok (jsonResp none (some [("34.4033.value", JVal.vInt 21)]))],
        trace := [] } "34.4001.value").1 (by decide)
    rw [h]
    decide
  · exact (get_filter_pump_data_cache_frame
      (PyArg.list [PumpData.elem PumpData.TEMPERATURE])
      { st := { params := [], current_data := [("34.4001.value", JVal.vStr "7.2")] },
        script := [NetResult.ok (jsonResp none (some [("34.4033.value", JVal.vInt 21)]))],
        trace := [] } "34.4033.value").2
      [PumpData.elem PumpData.TEMPERATURE]
      (jsonResp none (some [("34.4033.value", JVal.vInt 21)])) []
      { event := none, data := some [("34.4033.value", JVal.vInt 21)] }
      [("34.4033.value", JVal.vInt 21)] (JVal.vInt 21)
      rfl (by decide) rfl rfl rfl (by decide)

/-- C8 counterexample: the claim says `available()` is true iff the HTTP
status is success-class.  The code refutes it: a delivered 204 No Content
— a success-class status — yields false, because the code tests
`status_code == 200` exactly. -/
theorem available_false_on_success_class_204 :
    (available
      { st := baseState,
        script := [NetResult.ok { status_code := 204, text := "", json := none }],
        trace := [] }).1 = Except.ok false ∧ (200 ≤ 204 ∧ 204 < 300) := by decide

/-- C8 amended: method `available` never raises and returns true exactly when a
response is delivered with status exactly 200; a transport exception
yields false; the client state is untouched. -/
theorem available_iff_status_200 (e : Env) :
    (available e).1 = Except.ok (availSpec e.script) ∧ (available e).2.st = e.st := by
  obtain ⟨st, script, trace⟩ := e
  cases script with
  | nil => exact ⟨rfl, rfl⟩
  | cons nr rest => cases nr <;> exact ⟨rfl, rfl⟩

/-- C9: any level other than 1 or 2 makes `elevate_service_level` raise
ValueError at once: the environment (trace, script, client state) is
returned verbatim, so no transport contact and no state change. -/
theorem elevate_service_level_rejects_invalid_level (u p : String) (level : Int)
    (e : Env) (h1 : level ≠ 1) (h2 : level ≠ 2) :
    elevate_service_level u p level e
      = (Except.error (PyErr.valueError
          ("Invalid service level: " ++ toString level ++ ". Valid modes are: 1 and 2 only.")),
         e) := by
  simp only [elevate_service_level, if_pos (And.intro h1 h2)]

/-- C9 witness: level 3 is rejected synchronously with the environment
untouched. -/
theorem elevate_service_level_rejects_invalid_level_witness :
    elevate_service_level "user" "pw" 3 { st := baseState, script := [], trace := [] }
      = (Except.error (PyErr.valueError
          ("Invalid service level: " ++ toString (3 : Int) ++ ". Valid modes are: 1 and 2 only.")),
         { st := baseState, script := [], trace := [] }) :=
  elevate_service_level_rejects_invalid_level "user" "pw" 3
    { st := baseState, script := [], trace := [] } (by decide) (by decide)

/-- C10: when the credential POST of `login` is delivered and parsed but
the event-data field differs from the sentinel "3.16912.0", or equals it
while the follow-up `authenticated()` probe reports false, `login` falls
off the end of the function and returns Python `None` (modelled `ok
none`), not an explicit `False`. -/
theorem login_returns_none_on_unconfirmed (u p : String) (e e2 : Env)
    (r : Response) (rest : List NetResult) (j : PyJson) (ev : String)
    (hA : authenticated (login_precheck e) = (Except.ok false, e2))
    (hs : e2.script = NetResult.ok r :: rest)
    (hj : r.json = some j)
    (hev : j.event = some (some ev))
    (hfalse : ev = "3.16912.0" →
      (authenticated
        { e2 with
           script := rest,
           trace := e2.trace ++ [Request.post (loginBody u p)] }).1 = Except.ok false) :
    (login u p e).1 = Except.ok none := by
  simp only [login, hA]
  simp only [doPost, hs]
  simp only [hj, hev]
  by_cases hsent : ev = "3.16912.0"
  · rw [if_pos hsent]
    have hf := hfalse hsent
    rcases hA2 : authenticated
        { e2 with
           script := rest,
           trace := e2.trace ++ [Request.post (loginBody u p)] } with ⟨r2, e4⟩
    rw [hA2] at hf
    have hr2 : r2 = Except.ok false := hf
    subst hr2
    simp [hA2]
  · rw [if_neg hsent]

/-- C10 witness: authenticated probe false (title "PM5"), POST delivered
with event data "nope" ≠ sentinel: login returns None. -/
theorem login_returns_none_on_unconfirmed_witness :
    (login "user" "pw"
      { st := baseState,
        script := [NetResult.ok (titleResp "PM5"),
                   NetResult.ok (jsonResp (some (some "nope")) none)],
        trace := [] }).1 = Except.ok none :=
  login_returns_none_on_unconfirmed "user" "pw"
    { st := baseState,
      script := [NetResult.ok (titleResp "PM5"),
                 NetResult.ok (jsonResp (some (some "nope")) none)],
      trace := [] }
    { st := baseState,
      script := [NetResult.ok (jsonResp (some (some "nope")) none)],
      trace := [Request.get (baseState.params ++ [("cmd", "2.17005.0")])] }
    (jsonResp (some (some "nope")) none) [] { event := some (some "nope"), data := none }
    "nope" (by decide) rfl rfl rfl
    (fun hcontr => absurd hcontr (by decide))

end BayrolPool
